import Mathlib

/-!
Verification of the integration core of the pizza operations dashboard.

The development shallowly embeds the JavaScript source:

* `src/services/integrationService.js` — thin HTTP wrappers; only the shape
  of the outgoing calls and request bodies is modelled (`ApiCall`,
  `registerWebhookBody`).
* the Integrations page component — `fetchData`, `handleAdapterChange` and
  `handleConnect` become pure functions from the component state and the
  outcomes of the awaited remote calls to the next component state together
  with the list of remote calls issued.
* `src/components/WebhookEventsComponent.jsx` — the polling timer and the
  unmount behaviour become a small event-step machine.
* `src/components/OrderForm.jsx` — `removeItem`, `calculateTotal`
  and `handleSubmit` become pure functions; JavaScript numbers are modelled
  as exact rationals.

JavaScript objects used as string-keyed maps are modelled as association
lists that keep insertion order, with property assignment overwriting the
value of an existing key in place (`jsAssign`).
-/

namespace PizzaOps

/-- The remote operations of `integrationService`; a run of a flow is summarised
by the ordered list of calls it issued. -/
inductive ApiCall where
  | listAdapters
  | listConnections
  | connect (system : String)
  | disconnect (connectionId : String)
  | send (system : String) (endpoint : String)
  | listWebhooks
  | registerWebhook
  deriving Repr, DecidableEq

/-- A failed remote call, as observed through `err.response?.data?.message`:
`none` when any link of the optional chain is absent, `some m` when the
response body carried a `message` field with string value `m`. -/
structure TransportError where
  message : Option String
  deriving Repr, DecidableEq

/-- JavaScript truthiness-based fallback `m || fallback`: the fallback is used
when the message is absent or is the empty string (the empty string is falsy). -/
def messageOrElse (m : Option String) (fallback : String) : String :=
  match m with
  | some s => if s = "" then fallback else s
  | none => fallback

/-! ### JavaScript objects as ordered association lists -/

/-- Property assignment `obj[k] = v` on a JavaScript object: overwrite the
value of an existing key in place, otherwise append the new key at the end. -/
def jsAssign {α : Type} : List (String × α) → String → α → List (String × α)
  | [], k, v => [(k, v)]
  | p :: m, k, v => if p.1 = k then (k, v) :: m else p :: jsAssign m k v

/-- Property lookup `obj[k]` on a JavaScript object. -/
def jsLookup {α : Type} : List (String × α) → String → Option α
  | [], _ => none
  | p :: m, k => if p.1 = k then some p.2 else jsLookup m k

theorem jsLookup_jsAssign_self {α : Type} (m : List (String × α)) (k : String) (v : α) :
    jsLookup (jsAssign m k v) k = some v := by
  induction m with
  | nil => simp [jsAssign, jsLookup]
  | cons p m ih =>
      by_cases h : p.1 = k
      · simp [jsAssign, jsLookup, h]
      · simp [jsAssign, jsLookup, h, ih]

theorem jsLookup_jsAssign_ne {α : Type} (m : List (String × α)) {k k' : String} (v : α)
    (hne : k' ≠ k) : jsLookup (jsAssign m k v) k' = jsLookup m k' := by
  induction m with
  | nil => simp [jsAssign, jsLookup, Ne.symm hne]
  | cons p m ih =>
      by_cases h : p.1 = k
      · simp [jsAssign, jsLookup, h, Ne.symm hne, hne]
      · by_cases h2 : p.1 = k'
        · simp [jsAssign, jsLookup, h, h2, hne]
        · simp [jsAssign, jsLookup, h, h2, ih]

theorem jsLookup_eq_none_iff {α : Type} (m : List (String × α)) (k : String) :
    jsLookup m k = none ↔ k ∉ m.map Prod.fst := by
  induction m with
  | nil => simp [jsLookup]
  | cons p m ih =>
      by_cases h : p.1 = k
      · simp [jsLookup, h]
      · simp [jsLookup, h, ih, Ne.symm h]

/-- Assigning a fresh key appends it at the end of the object. -/
theorem jsAssign_of_not_mem {α : Type} {m : List (String × α)} {k : String} (v : α)
    (h : k ∉ m.map Prod.fst) : jsAssign m k v = m ++ [(k, v)] := by
  induction m with
  | nil => simp [jsAssign]
  | cons p m ih =>
      simp only [List.map_cons, List.mem_cons] at h
      push_neg at h
      simp [jsAssign, Ne.symm h.1, ih h.2]

/-! ### Data model (section 3 of the design document) -/

/-- One required credential field descriptor of an adapter. -/
structure CredentialField where
  name : String
  label : String
  fieldType : String
  required : Bool
  placeholder : Option String
  description : Option String
  deriving Repr, DecidableEq

/-- An integrable external system, as returned by `listAdapters`. -/
structure Adapter where
  id : String
  name : String
  requiredCredentials : List CredentialField
  deriving Repr, DecidableEq

/-- An established link to an external system, as returned by `listConnections`. -/
structure Connection where
  id : String
  system : String
  name : String
  status : String
  connectedAt : String
  lastSync : Option String
  deriving Repr, DecidableEq

/-- An inbound webhook event, as returned by `listWebhooks`. The payload is
kept as an opaque string. -/
structure WebhookEvent where
  id : String
  source : String
  timestamp : String
  path : String
  method : String
  payload : String
  deriving Repr, DecidableEq

/-! ### Integrations page: state and adapter selection -/

/-- The state of the Integrations page component (its `useState` hooks). The
credential form is a JavaScript object, modelled as an ordered association
list. -/
structure IntegrationsPageState where
  adapters : List Adapter
  connections : List Connection
  loading : Bool
  error : Option String
  selectedAdapter : String
  credentials : List (String × String)
  formError : Option String
  formSuccess : Option String
  isSubmitting : Bool
  deriving Repr, DecidableEq

/-- The credential object built by `handleAdapterChange` for a found adapter:
one empty-string entry per required credential field, assigned in field order. -/
def initialCredentials (adapter : Adapter) : List (String × String) :=
  adapter.requiredCredentials.foldl (fun m field => jsAssign m field.name "") []

/-- `handleAdapterChange` (Integrations page): look up the selected adapter id
in the fetched adapter list; reset the credential form to blank entries for its
required fields, or to the empty object when no adapter matches (in particular
for the empty placeholder option). Only the credential part of the handler is
modelled here; it also stores the selected id and clears the form messages. -/
def handleAdapterChange (adapters : List Adapter) (selectedAdapterId : String) :
    List (String × String) :=
  match adapters.find? (fun a => a.id = selectedAdapterId) with
  | some adapter => initialCredentials adapter
  | none => []

theorem foldl_jsAssign_fresh (fields : List CredentialField) :
    ∀ m : List (String × String),
      (fields.map CredentialField.name).Nodup →
      (∀ f ∈ fields, f.name ∉ m.map Prod.fst) →
      fields.foldl (fun m field => jsAssign m field.name "") m =
        m ++ fields.map (fun f => (f.name, "")) := by
  induction fields with
  | nil => intro m _ _; simp
  | cons f fields ih =>
      intro m hnodup hfresh
      simp only [List.map_cons, List.nodup_cons] at hnodup
      have hf : f.name ∉ m.map Prod.fst := hfresh f (List.mem_cons_self f fields)
      have hstep : jsAssign m f.name "" = m ++ [(f.name, "")] :=
        jsAssign_of_not_mem "" hf
      simp only [List.foldl_cons, hstep]
      rw [ih (m ++ [(f.name, "")]) hnodup.2]
      · simp
      · intro g hg
        have hmem2 : g.name ∈ fields.map CredentialField.name := List.mem_map_of_mem _ hg
        have hgne : g.name ≠ f.name := fun hEq => hnodup.1 (hEq ▸ hmem2)
        simp [List.map_append, hfresh g (List.mem_cons_of_mem f hg), hgne]

/-- With pairwise distinct field names, the credential object is exactly the
field names in order, each bound to the empty string. -/
theorem initialCredentials_eq_map (adapter : Adapter)
    (hnodup : (adapter.requiredCredentials.map CredentialField.name).Nodup) :
    initialCredentials adapter =
      adapter.requiredCredentials.map (fun f => (f.name, "")) := by
  have := foldl_jsAssign_fresh adapter.requiredCredentials [] hnodup (by simp)
  simpa [initialCredentials] using this

/-- With pairwise distinct adapter ids, looking up the id of a listed adapter
finds that adapter. -/
theorem find?_adapter_self {adapters : List Adapter} {a : Adapter}
    (hnodup : (adapters.map Adapter.id).Nodup) (hmem : a ∈ adapters) :
    adapters.find? (fun b => b.id = a.id) = some a := by
  induction adapters with
  | nil => cases hmem
  | cons b adapters ih =>
      simp only [List.map_cons, List.nodup_cons] at hnodup
      rcases List.mem_cons.mp hmem with h | h
      · subst h
        rw [List.find?_cons_of_pos]
        simp
      · have hne : b.id ≠ a.id := by
          intro hEq
          exact hnodup.1 (hEq ▸ List.mem_map_of_mem _ h)
        rw [List.find?_cons_of_neg _ (by simp [hne])]
        exact ih hnodup.2 h

/-! ### Order form (OrderForm.jsx) -/

/-- One line item of the order form. JavaScript numbers are modelled as exact
integers (quantity, produced by `parseInt`) and rationals (price, produced by
`parseFloat`). -/
structure OrderItem where
  name : String
  quantity : Int
  price : ℚ
  deriving Repr, DecidableEq

/-- The `orderData` object of the order form. -/
structure OrderFormData where
  customerName : String
  customerEmail : String
  customerPhone : String
  items : List OrderItem
  notes : String
  deliveryAddress : String
  paymentMethod : String
  deriving Repr, DecidableEq

/-- The initial (and post-success reset) value of `orderData`. -/
def initialOrderData : OrderFormData :=
  { customerName := ""
    customerEmail := ""
    customerPhone := ""
    items := [{ name := "", quantity := 1, price := 0 }]
    notes := ""
    deliveryAddress := ""
    paymentMethod := "card" }

/-- The state of the order form component. `orderResponse` holds the decoded
success payload of the `send` call. -/
structure SendResult where
  orderId : String
  status : String
  receiptUrl : Option String
  deriving Repr, DecidableEq

/-- The `useState` hooks of the order form component. -/
structure OrderFormState where
  orderData : OrderFormData
  isSubmitting : Bool
  orderStatus : Option String
  orderResponse : Option SendResult
  error : Option String
  deriving Repr, DecidableEq

/-- `removeItem` (OrderForm.jsx): a request to remove the item at `index` is a
no-op when exactly one item remains; otherwise `splice(index, 1)` deletes the
item at that position. -/
def removeItem (items : List OrderItem) (index : Nat) : List OrderItem :=
  if items.length = 1 then items
  else items.take index ++ items.drop (index + 1)

/-- `toFixed(2)` of ECMAScript on a non-negative exact rational: the integer
`n` for which `n / 100` is closest to the value, ties picking the larger `n`,
rendered with exactly two digits after the decimal point. -/
def toFixed2Abs (q : ℚ) : String :=
  let n : Nat := (q * 100 + 1 / 2).floor.toNat
  Nat.repr (n / 100) ++ "." ++ (if n % 100 < 10 then "0" else "") ++ Nat.repr (n % 100)

/-- `toFixed(2)` of ECMAScript on an exact rational: the sign is split off
first, then the absolute value is rounded and rendered. -/
def toFixed2 (q : ℚ) : String :=
  if q < 0 then "-" ++ toFixed2Abs (-q) else toFixed2Abs q

/-- `calculateTotal` (OrderForm.jsx): fold `quantity * price` over the items
starting from 0, then format the result with `toFixed(2)`. -/
def calculateTotal (items : List OrderItem) : String :=
  toFixed2 (items.foldl (fun total item => total + (item.quantity : ℚ) * item.price) 0)

/-- The item validation predicate of `handleSubmit`:
`!item.name || item.quantity < 1 || item.price <= 0`. -/
def itemInvalid (item : OrderItem) : Bool :=
  item.name == "" || decide (item.quantity < 1) || decide (item.price ≤ 0)

/-- `handleSubmit` (OrderForm.jsx) as a function from the current state and
the outcome of the awaited `send` call to the next state and the list of
remote calls issued. The two validation branches return before any call. -/
def handleSubmit (st : OrderFormState) (sendResult : Except TransportError SendResult) :
    OrderFormState × List ApiCall :=
  if st.orderData.customerName = "" then
    ({ st with error := some "Customer name is required" }, [])
  else if st.orderData.items.any itemInvalid then
    ({ st with error := some "All items must have a name, quantity, and price" }, [])
  else
    match sendResult with
    | Except.ok result =>
        ({ st with
            isSubmitting := false
            error := none
            orderStatus := some "success"
            orderResponse := some result
            orderData := initialOrderData },
          [ApiCall.send "square" "orders/create"])
    | Except.error err =>
        ({ st with
            isSubmitting := false
            orderStatus := some "error"
            error := some (messageOrElse err.message
              "Failed to process order. Please try again.") },
          [ApiCall.send "square" "orders/create"])

/-! ### Integrations page: initial load (fetchData) -/

/-- The generic message set by the catch branch of `fetchData`. -/
def loadFailureMessage : String :=
  "Failed to load integration data. Please try again later."

/-- The generic fallback of the catch branch of `handleConnect`. -/
def connectFallbackMessage : String :=
  "Failed to connect. Please check your credentials and try again."

/-- Which of the two parallel initial fetches settles first. -/
inductive FetchOrder where
  | adaptersFirst
  | connectionsFirst
  deriving Repr, DecidableEq

/-- One complete execution of the two parallel initial fetches issued by
`fetchData` through `Promise.all`: the outcome of each fetch and the order in
which the two promises settle. -/
structure InitialFetchRun where
  adaptersResult : Except TransportError (List Adapter)
  connectionsResult : Except TransportError (List Connection)
  order : FetchOrder
  deriving Repr

/-- Whether a remote call succeeded. -/
def fetchOk {α : Type} : Except TransportError α → Bool
  | Except.ok _ => true
  | Except.error _ => false

/-- The instant (1 = first, 2 = second) at which the adapters fetch settles. -/
def adaptersSettleTime (r : InitialFetchRun) : Nat :=
  match r.order with
  | FetchOrder.adaptersFirst => 1
  | FetchOrder.connectionsFirst => 2

/-- The instant at which the connections fetch settles. -/
def connectionsSettleTime (r : InitialFetchRun) : Nat :=
  match r.order with
  | FetchOrder.adaptersFirst => 2
  | FetchOrder.connectionsFirst => 1

/-- The instant at which `await Promise.all([...])` resumes `fetchData`: after
both promises when both fulfil, at the first rejection otherwise. -/
def promiseAllSettleTime (r : InitialFetchRun) : Nat :=
  match r.adaptersResult, r.connectionsResult with
  | Except.ok _, Except.ok _ => max (adaptersSettleTime r) (connectionsSettleTime r)
  | Except.error _, Except.ok _ => adaptersSettleTime r
  | Except.ok _, Except.error _ => connectionsSettleTime r
  | Except.error _, Except.error _ => min (adaptersSettleTime r) (connectionsSettleTime r)

/-- The instant at which `setLoading(false)` runs: the `finally` block executes
as soon as the awaited `Promise.all` settles, on the success and on the
failure path alike. -/
def loadingExitTime (r : InitialFetchRun) : Nat :=
  promiseAllSettleTime r

/-- The state of the Integrations page after `fetchData` has run to
completion: on success both lists are stored and the error cleared; on any
failure only the one generic message is stored (the rejected promise, not the
identity of the failed fetch, reaches the catch branch). -/
def fetchDataFinal (r : InitialFetchRun) (st : IntegrationsPageState) :
    IntegrationsPageState :=
  match r.adaptersResult, r.connectionsResult with
  | Except.ok adaptersData, Except.ok connectionsData =>
      { st with
          adapters := adaptersData
          connections := connectionsData
          error := none
          loading := false }
  | _, _ =>
      { st with
          error := some loadFailureMessage
          loading := false }

/-! ### Integrations page: connect submission (handleConnect) -/

/-- `handleConnect` (Integrations page) as a function from the current state
and the outcomes of the two awaited calls to the next state and the ordered
list of remote calls issued. With no adapter selected the handler returns
before any call. After a successful `connect` the handler always re-fetches
`listConnections`; the `connect` result itself is not used. -/
def handleConnect (st : IntegrationsPageState)
    (connectResult : Except TransportError Connection)
    (refreshResult : Except TransportError (List Connection)) :
    IntegrationsPageState × List ApiCall :=
  if st.selectedAdapter = "" then
    ({ st with formError := some "Please select an adapter" }, [])
  else
    match connectResult with
    | Except.error err =>
        ({ st with
            isSubmitting := false
            formError := some (messageOrElse err.message connectFallbackMessage) },
          [ApiCall.connect st.selectedAdapter])
    | Except.ok _ =>
        match refreshResult with
        | Except.error err =>
            ({ st with
                isSubmitting := false
                formError := some (messageOrElse err.message connectFallbackMessage) },
              [ApiCall.connect st.selectedAdapter, ApiCall.listConnections])
        | Except.ok updatedConnections =>
            ({ st with
                isSubmitting := false
                connections := updatedConnections
                formError := none
                formSuccess := some ("Successfully connected to " ++ st.selectedAdapter)
                selectedAdapter := ""
                credentials := [] },
              [ApiCall.connect st.selectedAdapter, ApiCall.listConnections])

/-- The remote calls issued by the initial load of the Integrations page:
`Promise.all` starts the two fetches in array order. -/
def initialLoadCalls : List ApiCall :=
  [ApiCall.listAdapters, ApiCall.listConnections]

/-- The ordered list of remote calls over a session consisting of the initial
load followed by one submission of the connect form. -/
def sessionTrace (st : IntegrationsPageState)
    (connectResult : Except TransportError Connection)
    (refreshResult : Except TransportError (List Connection)) : List ApiCall :=
  initialLoadCalls ++ (handleConnect st connectResult refreshResult).2

/-! ### Webhook monitor (WebhookEventsComponent.jsx) -/

/-- The generic message set by the catch branch of `fetchWebhookEvents`. -/
def webhookFailureMessage : String :=
  "Failed to load webhook events. Please try again later."

/-- `[...new Set(xs)]` of JavaScript: distinct values in first-occurrence
order. -/
def uniqueFirst (l : List String) : List String :=
  l.foldl (fun acc s => if s ∈ acc then acc else acc ++ [s]) []

/-- The `useState` hooks of the webhook monitor component. -/
structure WebhookMonitorState where
  webhookEvents : List WebhookEvent
  loading : Bool
  error : Option String
  filterSource : String
  sources : List String
  deriving Repr, DecidableEq

/-- A mounted or unmounted instance of the webhook monitor component. -/
structure MonitorInstance where
  mounted : Bool
  state : WebhookMonitorState
  deriving Repr, DecidableEq

/-- A state update dispatched through a `useState` setter. The React runtime
discards updates dispatched to a component that has unmounted, so the update
function is applied only while the instance is mounted. -/
def dispatch (inst : MonitorInstance) (f : WebhookMonitorState → WebhookMonitorState) :
    MonitorInstance :=
  if inst.mounted then { inst with state := f inst.state } else inst

/-- The state updates performed by `fetchWebhookEvents` when the awaited
`listWebhooks` call settles: on success replace the snapshot, recompute the
distinct sources and clear the error; on failure set the generic error. Both
branches clear the loading flag. -/
def applyFetchResult (st : WebhookMonitorState)
    (r : Except TransportError (List WebhookEvent)) : WebhookMonitorState :=
  match r with
  | Except.ok webhooks =>
      { st with
          webhookEvents := webhooks
          sources := uniqueFirst (webhooks.map WebhookEvent.source)
          error := none
          loading := false }
  | Except.error _ =>
      { st with
          error := some webhookFailureMessage
          loading := false }

/-- The discrete events acting on a monitor instance: the response of a
`listWebhooks` fetch arriving, and the unmount of the component. -/
inductive MonitorEvent where
  | fetchResponse (r : Except TransportError (List WebhookEvent))
  | unmount

/-- One event step of the monitor instance. -/
def monitorStep (inst : MonitorInstance) : MonitorEvent → MonitorInstance
  | MonitorEvent.fetchResponse r => dispatch inst (fun st => applyFetchResult st r)
  | MonitorEvent.unmount => { inst with mounted := false }

/-- A sequence of event steps. -/
def monitorRun (inst : MonitorInstance) (events : List MonitorEvent) : MonitorInstance :=
  events.foldl monitorStep inst

/-! ### Webhook monitor: polling timer -/

/-- The polling period of the webhook monitor, in milliseconds
(`setInterval(..., 15000)`). -/
def pollInterval : Nat := 15000

/-- Whether the timer of a monitor mounted at time 0 is still installed at
time `t`: `clearInterval` runs at the unmount time, so the timer is gone from
that instant on. `none` means the monitor is never unmounted. -/
def timerActiveAt (unmountTime : Option Nat) (t : Nat) : Bool :=
  match unmountTime with
  | none => true
  | some u => decide (t < u)

/-- Whether a `listWebhooks` fetch is initiated at time `t`: the immediate
fetch at mount time 0 and the interval firings at every later multiple of the
polling period, as long as the timer is installed. -/
def fetchFiresAt (unmountTime : Option Nat) (t : Nat) : Bool :=
  timerActiveAt unmountTime t && decide (t % pollInterval = 0)

/-- The cumulative number of fetches initiated during the first `t`
milliseconds (instants 0 to `t` inclusive) of a monitor mounted at time 0. -/
def fetchCount (unmountTime : Option Nat) (t : Nat) : Nat :=
  ((List.range (t + 1)).filter (fetchFiresAt unmountTime)).length

/-! ### registerWebhook request body (integrationService.js) -/

/-- The request body of `registerWebhook`: the object literal
`{ path, ...options }` starts from the path entry and then copies the own
entries of `options` in order, each by property assignment (an existing key is
overwritten in place, a fresh key is appended). -/
def registerWebhookBody {α : Type} (path : α) (options : List (String × α)) :
    List (String × α) :=
  options.foldl (fun body kv => jsAssign body kv.1 kv.2) [("path", path)]

theorem jsLookup_foldl_jsAssign_not_mem {α : Type} (os : List (String × α)) :
    ∀ (m : List (String × α)) (k : String), k ∉ os.map Prod.fst →
      jsLookup (os.foldl (fun body kv => jsAssign body kv.1 kv.2) m) k = jsLookup m k := by
  induction os with
  | nil => intro m k _; rfl
  | cons kv os ih =>
      intro m k hk
      simp only [List.map_cons, List.mem_cons] at hk
      push_neg at hk
      simp only [List.foldl_cons]
      rw [ih _ k hk.2, jsLookup_jsAssign_ne _ _ hk.1]

theorem jsLookup_foldl_jsAssign_of_lookup {α : Type} (os : List (String × α)) :
    ∀ (m : List (String × α)) (k : String) (v : α),
      (os.map Prod.fst).Nodup → jsLookup os k = some v →
      jsLookup (os.foldl (fun body kv => jsAssign body kv.1 kv.2) m) k = some v := by
  induction os with
  | nil => intro m k v _ h; simp [jsLookup] at h
  | cons kv os ih =>
      intro m k v hnodup hlook
      simp only [List.map_cons, List.nodup_cons] at hnodup
      by_cases hk : kv.1 = k
      · subst hk
        have hval : kv.2 = v := by simpa [jsLookup] using hlook
        simp only [List.foldl_cons]
        rw [jsLookup_foldl_jsAssign_not_mem os _ _ hnodup.1,
          jsLookup_jsAssign_self, hval]
      · have hrest : jsLookup os k = some v := by
          simpa [jsLookup, hk] using hlook
        simp only [List.foldl_cons]
        exact ih _ k v hnodup.2 hrest

/-! ### Concrete example values -/

/-- A concrete adapter with two required credential fields. -/
def squareAdapter : Adapter :=
  { id := "square"
    name := "Square POS"
    requiredCredentials :=
      [ { name := "apiKey", label := "API Key", fieldType := "password",
          required := true, placeholder := none, description := none },
        { name := "locationId", label := "Location ID", fieldType := "text",
          required := true, placeholder := none, description := none } ] }

/-- A concrete established connection. -/
def exampleConnection : Connection :=
  { id := "conn_1"
    system := "square"
    name := "Square POS"
    status := "active"
    connectedAt := "2025-04-28T10:15:30Z"
    lastSync := none }

/-- A concrete Integrations page state with an adapter selected and
credentials entered. -/
def examplePageState : IntegrationsPageState :=
  { adapters := [squareAdapter]
    connections := []
    loading := false
    error := none
    selectedAdapter := "square"
    credentials := [("apiKey", "sk_test_123"), ("locationId", "L123")]
    formError := none
    formSuccess := none
    isSubmitting := false }

/-- An initial-load execution in which the adapters fetch fails first while
the connections fetch is still in flight. -/
def adaptersFailFirstRun : InitialFetchRun :=
  { adaptersResult := Except.error { message := none }
    connectionsResult := Except.ok [exampleConnection]
    order := FetchOrder.adaptersFirst }

/-- An initial-load execution in which both fetches succeed. -/
def bothOkRun : InitialFetchRun :=
  { adaptersResult := Except.ok [squareAdapter]
    connectionsResult := Except.ok []
    order := FetchOrder.adaptersFirst }

/-- A concrete order item. -/
def margheritaItem : OrderItem :=
  { name := "Margherita", quantity := 1, price := (19 : ℚ) / 2 }

/-- Another concrete order item. -/
def pepperoniItem : OrderItem :=
  { name := "Pepperoni", quantity := 2, price := 12 }

/-- A concrete order form state whose customer name is empty. -/
def emptyNameFormState : OrderFormState :=
  { orderData :=
      { customerName := ""
        customerEmail := "jo@example.com"
        customerPhone := "555-1234"
        items := [pepperoniItem]
        notes := "extra cheese"
        deliveryAddress := "1 Main St"
        paymentMethod := "cash" }
    isSubmitting := false
    orderStatus := none
    orderResponse := none
    error := none }

/-! ### Supporting lemmas -/

theorem fetchCount_succ (u : Option Nat) (t : Nat) :
    fetchCount u (t + 1) =
      fetchCount u t + (if fetchFiresAt u (t + 1) = true then 1 else 0) := by
  simp only [fetchCount, List.range_succ, List.filter_append, List.length_append]
  cases h : fetchFiresAt u (t + 1) <;> simp [h]

/-- Closed form for the cumulative fetch count of a never-unmounted monitor:
the immediate fetch plus one fetch per elapsed polling period. -/
theorem fetchCount_none_closed (t : Nat) :
    fetchCount none t = t / pollInterval + 1 := by
  induction t with
  | zero => decide
  | succ t ih =>
      rw [fetchCount_succ, ih, Nat.succ_div]
      by_cases h : pollInterval ∣ (t + 1)
      · have hm : (t + 1) % pollInterval = 0 := by
          obtain ⟨c, hc⟩ := h
          rw [hc, Nat.mul_mod_right]
        simp only [fetchFiresAt, timerActiveAt, hm, h]
        simp
      · have hm : ¬ ((t + 1) % pollInterval = 0) :=
          fun hc => h (Nat.dvd_of_mod_eq_zero hc)
        simp only [fetchFiresAt, timerActiveAt, h]
        simp [hm]

theorem monitorRun_not_mounted
    (responses : List (Except TransportError (List WebhookEvent))) :
    ∀ inst : MonitorInstance, inst.mounted = false →
      monitorRun inst (responses.map MonitorEvent.fetchResponse) = inst := by
  induction responses with
  | nil => intro inst _; rfl
  | cons r responses ih =>
      intro inst h
      have hstep : monitorStep inst (MonitorEvent.fetchResponse r) = inst := by
        simp [monitorStep, dispatch, h]
      simp only [List.map_cons, monitorRun, List.foldl_cons]
      rw [hstep]
      exact ih inst h

theorem foldl_subtotal_eq_sum (items : List OrderItem) :
    ∀ acc : ℚ,
      items.foldl (fun total item => total + (item.quantity : ℚ) * item.price) acc =
        acc + (items.map (fun item => (item.quantity : ℚ) * item.price)).sum := by
  induction items with
  | nil => intro acc; simp
  | cons item items ih =>
      intro acc
      simp only [List.foldl_cons, List.map_cons, List.sum_cons, ih]
      ring

theorem fetchCount_const_after_unmount (u : Nat) :
    ∀ t : Nat, u ≤ t → fetchCount (some u) t = fetchCount (some u) u := by
  intro t ht
  induction t, ht using Nat.le_induction with
  | base => rfl
  | succ t ht ih =>
      rw [fetchCount_succ]
      have hoff : ¬ (t + 1 < u) := by omega
      simp [fetchFiresAt, timerActiveAt, hoff, ih]

/-! ### Claim theorems -/

/-- Claim C1: over a session consisting of the initial load followed by one
connect submission whose `connect` call succeeds, the remote-call trace is
exactly `listAdapters`, `listConnections`, `connect`, `listConnections` —
two `listConnections` calls in total, and the post-connect refresh is placed
strictly after the `connect` call in the trace (for either outcome of the
refresh itself). -/
theorem connect_refreshes_connections_once (st : IntegrationsPageState)
    (c : Connection) (refreshResult : Except TransportError (List Connection))
    (hsel : st.selectedAdapter ≠ "") :
    sessionTrace st (Except.ok c) refreshResult =
      [ApiCall.listAdapters, ApiCall.listConnections,
        ApiCall.connect st.selectedAdapter, ApiCall.listConnections] ∧
    (sessionTrace st (Except.ok c) refreshResult).count ApiCall.listConnections = 2 := by
  have htrace : sessionTrace st (Except.ok c) refreshResult =
      [ApiCall.listAdapters, ApiCall.listConnections,
        ApiCall.connect st.selectedAdapter, ApiCall.listConnections] := by
    cases refreshResult with
    | ok l => simp [sessionTrace, initialLoadCalls, handleConnect, hsel]
    | error e => simp [sessionTrace, initialLoadCalls, handleConnect, hsel]
  refine ⟨htrace, ?_⟩
  rw [htrace]
  simp [List.count_cons]

/-- Witness for claim C1 at a concrete session. -/
theorem connect_refreshes_connections_once_witness :
    examplePageState.selectedAdapter ≠ "" ∧
    (sessionTrace examplePageState (Except.ok exampleConnection)
        (Except.ok [exampleConnection]) =
      [ApiCall.listAdapters, ApiCall.listConnections,
        ApiCall.connect "square", ApiCall.listConnections] ∧
    (sessionTrace examplePageState (Except.ok exampleConnection)
        (Except.ok [exampleConnection])).count ApiCall.listConnections = 2) :=
  ⟨by decide,
    connect_refreshes_connections_once examplePageState exampleConnection
      (Except.ok [exampleConnection]) (by decide)⟩

/-- Counterexample to claim C2 as stated: in the execution where the adapters
fetch rejects first while the connections fetch is still in flight,
`Promise.all` rejects at the first rejection, the `finally` block runs and the
manager leaves the loading state strictly before the connections fetch has
completed or failed. -/
theorem loading_exits_before_connections_settle :
    loadingExitTime adaptersFailFirstRun < connectionsSettleTime adaptersFailFirstRun := by
  decide

/-- Claim C2 (amended): the manager always leaves the loading state when
`fetchData` finishes; when both initial fetches succeed this happens only
after both have completed, and a failure of either fetch puts the manager in
an error state carrying the single generic failed-to-load message — identical
for every combination of failures, so which fetch failed is not recorded —
though on failure the loading state may be left while the other fetch is
still in flight. -/
theorem fetchData_loading_and_error (r : InitialFetchRun) (st : IntegrationsPageState) :
    (fetchDataFinal r st).loading = false ∧
    (fetchOk r.adaptersResult = true → fetchOk r.connectionsResult = true →
      loadingExitTime r = max (adaptersSettleTime r) (connectionsSettleTime r) ∧
      (fetchDataFinal r st).error = none) ∧
    ((fetchOk r.adaptersResult = false ∨ fetchOk r.connectionsResult = false) →
      (fetchDataFinal r st).error = some loadFailureMessage) := by
  obtain ⟨ra, rc, ord⟩ := r
  cases ra <;> cases rc <;>
    simp [fetchDataFinal, fetchOk, loadingExitTime, promiseAllSettleTime]

/-- Witness for claim C2 (amended) at a succeeding and at a failing run. -/
theorem fetchData_loading_and_error_witness :
    fetchOk bothOkRun.adaptersResult = true ∧
    fetchOk bothOkRun.connectionsResult = true ∧
    (fetchDataFinal bothOkRun examplePageState).error = none ∧
    fetchOk adaptersFailFirstRun.adaptersResult = false ∧
    (fetchDataFinal adaptersFailFirstRun examplePageState).error = some loadFailureMessage :=
  ⟨by decide, by decide,
    ((fetchData_loading_and_error bothOkRun examplePageState).2.1 (by decide) (by decide)).2,
    by decide,
    (fetchData_loading_and_error adaptersFailFirstRun examplePageState).2.2
      (Or.inl (by decide))⟩

/-- Claim C3: a `listWebhooks` response that arrives after the monitor has
unmounted is discarded — the React runtime drops state updates dispatched to
an unmounted component — so any sequence of in-flight responses delivered
after deactivation leaves the event snapshot, the source list and the error
state exactly as they were at unmount. -/
theorem inflight_response_after_unmount_discarded (inst : MonitorInstance)
    (responses : List (Except TransportError (List WebhookEvent))) :
    (monitorRun (monitorStep inst MonitorEvent.unmount)
        (responses.map MonitorEvent.fetchResponse)).state = inst.state ∧
    (monitorRun (monitorStep inst MonitorEvent.unmount)
        (responses.map MonitorEvent.fetchResponse)).mounted = false := by
  have h : (monitorStep inst MonitorEvent.unmount).mounted = false := rfl
  rw [monitorRun_not_mounted responses _ h]
  exact ⟨rfl, rfl⟩

/-- Claim C4: the monitor issues one fetch immediately on activation; with the
monitor still active, the cumulative fetch count is 2 after one polling period
and 3 after two; and once the monitor is deactivated at any time `u`, the
count never changes again — no further fetch is initiated. -/
theorem polling_schedule_counts :
    fetchCount none 0 = 1 ∧
    fetchCount none pollInterval = 2 ∧
    fetchCount none (2 * pollInterval) = 3 ∧
    ∀ u t₁ t₂ : Nat, u ≤ t₁ → t₁ ≤ t₂ →
      fetchCount (some u) t₂ = fetchCount (some u) t₁ := by
  refine ⟨?_, ?_, ?_, ?_⟩
  · rw [fetchCount_none_closed]
    simp
  · rw [fetchCount_none_closed]
    norm_num [pollInterval]
  · rw [fetchCount_none_closed]
    norm_num [pollInterval]
  · intro u t₁ t₂ h1 h2
    rw [fetchCount_const_after_unmount u t₂ (le_trans h1 h2),
      fetchCount_const_after_unmount u t₁ h1]

/-- Witness for claim C4: unmounting at 16000 ms (before the 30000 ms
boundary) freezes the fetch count. -/
theorem polling_schedule_counts_witness :
    (16000 : Nat) ≤ 16000 ∧ (16000 : Nat) ≤ 29999 ∧
    fetchCount (some 16000) 29999 = fetchCount (some 16000) 16000 :=
  ⟨le_refl _, by norm_num,
    polling_schedule_counts.2.2.2 16000 16000 29999 (le_refl _) (by norm_num)⟩

/-- Claim C5: for an adapter of the fetched list (adapter ids distinct, its
credential field names distinct), selecting that adapter produces a credential
object whose keys are exactly the names of its required credential fields, in
order, each bound to the empty string; selecting the empty placeholder option
produces the empty credential object. -/
theorem adapter_selection_resets_credentials (adapters : List Adapter) (a : Adapter)
    (hids : (adapters.map Adapter.id).Nodup) (hmem : a ∈ adapters)
    (hnames : (a.requiredCredentials.map CredentialField.name).Nodup) :
    handleAdapterChange adapters a.id =
      a.requiredCredentials.map (fun f => (f.name, "")) ∧
    (handleAdapterChange adapters a.id).map Prod.fst =
      a.requiredCredentials.map CredentialField.name ∧
    (handleAdapterChange adapters a.id).length = a.requiredCredentials.length ∧
    (∀ p ∈ handleAdapterChange adapters a.id, p.2 = "") ∧
    ((∀ b ∈ adapters, b.id ≠ "") → handleAdapterChange adapters "" = []) := by
  have h1 : handleAdapterChange adapters a.id =
      a.requiredCredentials.map (fun f => (f.name, "")) := by
    rw [handleAdapterChange, find?_adapter_self hids hmem]
    exact initialCredentials_eq_map a hnames
  refine ⟨h1, ?_, ?_, ?_, ?_⟩
  · rw [h1, List.map_map]
    rfl
  · rw [h1, List.length_map]
  · intro p hp
    rw [h1] at hp
    obtain ⟨f, _, rfl⟩ := List.mem_map.mp hp
    rfl
  · intro hno
    rw [handleAdapterChange]
    have : adapters.find? (fun b => b.id = "") = none := by
      rw [List.find?_eq_none]
      intro b hb
      simp [hno b hb]
    rw [this]

/-- Witness for claim C5 at a concrete adapter list. -/
theorem adapter_selection_resets_credentials_witness :
    ([squareAdapter].map Adapter.id).Nodup ∧
    squareAdapter ∈ [squareAdapter] ∧
    (squareAdapter.requiredCredentials.map CredentialField.name).Nodup ∧
    handleAdapterChange [squareAdapter] "square" =
      [("apiKey", ""), ("locationId", "")] :=
  ⟨by decide, by decide, by decide,
    (adapter_selection_resets_credentials [squareAdapter] squareAdapter
      (by decide) (by decide) (by decide)).1⟩

/-- Claim C6: with exactly one item in the list, a remove request at any index
is a no-op — the list, and hence every field of the remaining item, is
unchanged; with more than one item, a remove request at a valid index deletes
exactly the item at that position. -/
theorem removeItem_keeps_last_item (items : List OrderItem) (index : Nat) :
    (items.length = 1 → removeItem items index = items) ∧
    (1 < items.length → index < items.length →
      removeItem items index = items.take index ++ items.drop (index + 1) ∧
      (removeItem items index).length + 1 = items.length) := by
  constructor
  · intro h
    simp [removeItem, h]
  · intro h1 h2
    have hne : items.length ≠ 1 := by omega
    constructor
    · simp [removeItem, hne]
    · simp only [removeItem, hne, if_false, List.length_append, List.length_take,
        List.length_drop]
      omega

/-- Witness for claim C6: the single-item no-op and a two-item deletion. -/
theorem removeItem_keeps_last_item_witness :
    [margheritaItem].length = 1 ∧
    removeItem [margheritaItem] 5 = [margheritaItem] ∧
    1 < [margheritaItem, pepperoniItem].length ∧
    (0 : Nat) < [margheritaItem, pepperoniItem].length ∧
    removeItem [margheritaItem, pepperoniItem] 0 = [pepperoniItem] :=
  ⟨rfl, (removeItem_keeps_last_item [margheritaItem] 5).1 rfl,
    by norm_num, by norm_num,
    ((removeItem_keeps_last_item [margheritaItem, pepperoniItem] 0).2
      (by norm_num) (by norm_num)).1⟩

/-- Claim C7: the displayed total is the sum over all items of
quantity times price, formatted to two decimal places; in particular a single
item with quantity 2 and price 10.99 displays as the string 21.98. -/
theorem total_is_formatted_sum :
    (∀ items : List OrderItem,
      calculateTotal items =
        toFixed2 ((items.map (fun item => (item.quantity : ℚ) * item.price)).sum)) ∧
    calculateTotal [{ name := "Margherita", quantity := 2, price := 10.99 }] = "21.98" := by
  constructor
  · intro items
    simp only [calculateTotal, foldl_subtotal_eq_sum, zero_add]
  · have hsum : List.foldl (fun (total : ℚ) (item : OrderItem) =>
          total + (item.quantity : ℚ) * item.price) 0
        ([{ name := "Margherita", quantity := 2, price := 10.99 }] : List OrderItem) =
        1099 / 50 := by
      show (0 : ℚ) + ((2 : Int) : ℚ) * 10.99 = 1099 / 50
      push_cast
      norm_num
    have hneg : ¬ ((1099 : ℚ) / 50 < 0) := by norm_num
    have harg : (1099 : ℚ) / 50 * 100 + 1 / 2 = 4397 / 2 := by norm_num
    have hfl : ((4397 : ℚ) / 2).floor = 2198 := by
      have h : ((4397 : ℚ) / 2).floor = ⌊(4397 : ℚ) / 2⌋ := rfl
      rw [h, Int.floor_eq_iff]
      norm_num
    unfold calculateTotal
    rw [hsum]
    unfold toFixed2
    rw [if_neg hneg]
    unfold toFixed2Abs
    rw [harg, hfl]
    decide

/-- Claim C8: submitting the order form while the customer name is empty
issues no remote call, sets the validation error message, and leaves the
entered form data unchanged. -/
theorem empty_customer_name_blocks_submit (st : OrderFormState)
    (sendResult : Except TransportError SendResult)
    (h : st.orderData.customerName = "") :
    (handleSubmit st sendResult).2 = [] ∧
    (handleSubmit st sendResult).1.error = some "Customer name is required" ∧
    (handleSubmit st sendResult).1.orderData = st.orderData := by
  simp [handleSubmit, h]

/-- Witness for claim C8 at a concrete form state with an empty name. -/
theorem empty_customer_name_blocks_submit_witness :
    emptyNameFormState.orderData.customerName = "" ∧
    ((handleSubmit emptyNameFormState (Except.error { message := none })).2 = [] ∧
      (handleSubmit emptyNameFormState (Except.error { message := none })).1.error =
        some "Customer name is required" ∧
      (handleSubmit emptyNameFormState (Except.error { message := none })).1.orderData =
        emptyNameFormState.orderData) :=
  ⟨rfl, empty_customer_name_blocks_submit emptyNameFormState
    (Except.error { message := none }) rfl⟩

/-- Counterexample to claim C9 as stated: a failed connect whose response body
contains the message field with the empty string — a present message — is not
displayed; the falsy-or fallback shows the generic message instead. -/
theorem connect_error_empty_message_shows_generic :
    (handleConnect examplePageState (Except.error { message := some "" })
        (Except.ok [])).1.formError = some connectFallbackMessage ∧
    (handleConnect examplePageState (Except.error { message := some "" })
        (Except.ok [])).1.formError ≠ some "" := by
  constructor
  · decide
  · decide

/-- Claim C9 (amended): when a connect submission fails with a transport error
whose body carries a non-empty message, exactly that message is displayed; the
generic fallback is displayed when the message is absent or empty. -/
theorem connect_error_message_preferred (st : IntegrationsPageState)
    (refreshResult : Except TransportError (List Connection))
    (hsel : st.selectedAdapter ≠ "") :
    (∀ m : String, m ≠ "" →
      (handleConnect st (Except.error { message := some m }) refreshResult).1.formError =
        some m) ∧
    (handleConnect st (Except.error { message := some "" }) refreshResult).1.formError =
      some connectFallbackMessage ∧
    (handleConnect st (Except.error { message := none }) refreshResult).1.formError =
      some connectFallbackMessage := by
  refine ⟨?_, ?_, ?_⟩
  · intro m hm
    simp [handleConnect, hsel, messageOrElse, hm]
  · simp [handleConnect, hsel, messageOrElse]
  · simp [handleConnect, hsel, messageOrElse]

/-- Witness for claim C9 (amended): the server message Invalid API key is
shown verbatim. -/
theorem connect_error_message_preferred_witness :
    examplePageState.selectedAdapter ≠ "" ∧
    "Invalid API key" ≠ "" ∧
    (handleConnect examplePageState (Except.error { message := some "Invalid API key" })
        (Except.ok [])).1.formError = some "Invalid API key" :=
  ⟨by decide, by decide,
    (connect_error_message_preferred examplePageState (Except.ok [])
      (by decide)).1 "Invalid API key" (by decide)⟩

/-- Claim C10: the transmitted `registerWebhook` body is the path entry merged
with the option entries applied afterwards — every option entry is present in
the body, and when the options themselves carry no path key the body maps path
to the path argument; a path key in the options therefore overrides the path
argument (the witness exhibits the override). -/
theorem registerWebhook_body_merge {α : Type} (p : α) (options : List (String × α))
    (hnodup : (options.map Prod.fst).Nodup) :
    (∀ (k : String) (v : α), jsLookup options k = some v →
      jsLookup (registerWebhookBody p options) k = some v) ∧
    (jsLookup options "path" = none →
      jsLookup (registerWebhookBody p options) "path" = some p) := by
  constructor
  · intro k v h
    exact jsLookup_foldl_jsAssign_of_lookup options _ k v hnodup h
  · intro h
    have hnm : "path" ∉ options.map Prod.fst := (jsLookup_eq_none_iff options "path").mp h
    rw [registerWebhookBody, jsLookup_foldl_jsAssign_not_mem options _ "path" hnm]
    rfl

/-- Witness for claim C10: an options object carrying its own path key
overrides the path argument in the transmitted body. -/
theorem registerWebhook_body_merge_witness :
    ([("description", "orders hook"), ("path", "/override")].map Prod.fst).Nodup ∧
    jsLookup [("description", "orders hook"), ("path", "/override")] "path" =
      some "/override" ∧
    jsLookup (registerWebhookBody "/orig"
        [("description", "orders hook"), ("path", "/override")]) "path" =
      some "/override" :=
  ⟨by decide, by decide,
    (registerWebhook_body_merge "/orig"
      [("description", "orders hook"), ("path", "/override")] (by decide)).1
      "path" "/override" (by decide)⟩

end PizzaOps
